import Mathlib

/-!
Verification development for the evolutia exam-variation generator.

The Python sources embedded here:
- `evolutia.py` (orchestrator / acceptance loops),
- `variation_generator.py` (base generator and provider dispatch),
- `rag/enhanced_variation_generator.py` (RAG retrieval and enhanced generator).

External collaborators (cloud APIs, the retrieval index, the context
enricher, the complexity analyzer and validators, which live outside the
embedded sources) are modelled as explicit oracle parameters, and the
validator's acceptance rule is modelled from the specification where noted.
Machine strings are Lean `String`s, Python `None`-able values are `Option`s,
Python exceptions are `Except`, and randomness is an explicit index oracle.
-/

/-! ### Python string primitives used by the parsing code -/

/-- One pass of Python `str.replace`: leftmost, non-overlapping occurrences. -/
def pyReplaceAux (old new : List Char) : ℕ → List Char → List Char
  | 0, s => s
  | fuel + 1, s =>
    match s with
    | [] => []
    | c :: rest =>
      if old.isPrefixOf s then new ++ pyReplaceAux old new fuel (s.drop old.length)
      else c :: pyReplaceAux old new fuel rest

/-- Python `s.replace(old, new)` (for non-empty `old`). -/
def pyReplace (s old new : String) : String :=
  ⟨pyReplaceAux old.toList new.toList (s.toList.length + 1) s.toList⟩

/-- Python `s.strip()`: whitespace removed from both ends. -/
def pyStrip (s : String) : String :=
  ⟨((s.toList.dropWhile Char.isWhitespace).reverse.dropWhile Char.isWhitespace).reverse⟩

/-- Python `s[:n]`. -/
def pyTake (s : String) (n : ℕ) : String := ⟨s.toList.take n⟩

/-- Worker for Python `str.split(sep)` with non-empty `sep`. -/
def pySplitAux (sep : List Char) : ℕ → List Char → List Char → List (List Char)
  | 0, cur, s => [cur.reverse ++ s]
  | fuel + 1, cur, s =>
    match s with
    | [] => [cur.reverse]
    | c :: rest =>
      if sep.isPrefixOf s then cur.reverse :: pySplitAux sep fuel [] (s.drop sep.length)
      else pySplitAux sep fuel (c :: cur) rest

/-- Python `s.split(sep)` for a non-empty separator. -/
def pySplit (s sep : String) : List String :=
  (pySplitAux sep.toList (s.toList.length + 1) [] s.toList).map (fun l => ⟨l⟩)

/-- Python string truthiness (`if s:`) lifted to optional strings. -/
def strTruthy : Option String → Option String
  | some s => if s = "" then none else some s
  | none => none

/-- Python `a or b` on optional strings, with the empty string falsy. -/
def pyOrStr (a b : Option String) : Option String :=
  match strTruthy a with
  | some s => some s
  | none => b

/-! ### JSON values and `json.loads` (with `strict=False`)

The quiz branches of the generators run the raw model response through
`json.loads(..., strict=False)`.  The parser below follows the JSON grammar
accepted by Python's decoder: `strict=False` admits raw control characters
inside strings, invalid backslash escapes are rejected, numbers keep their
lexeme (none of the embedded code computes with them), objects keep
insertion order with later duplicate keys overwriting earlier values. -/

inductive JVal where
  | null
  | bool (b : Bool)
  | num (lex : String)
  | str (s : String)
  | arr (elems : List JVal)
  | obj (members : List (String × JVal))

/-- `{` written without a brace character. -/
def lbrace : Char := Char.ofNat 123

/-- `}` written without a brace character. -/
def rbrace : Char := Char.ofNat 125

def jsonWs (c : Char) : Bool :=
  c = ' ' || c = '\t' || c = '\n' || c = '\r'

def skipWs (s : List Char) : List Char := s.dropWhile (fun c => jsonWs c)

def hexVal (c : Char) : Option ℕ :=
  if '0' ≤ c ∧ c ≤ '9' then some (c.toNat - '0'.toNat)
  else if 'a' ≤ c ∧ c ≤ 'f' then some (c.toNat - 'a'.toNat + 10)
  else if 'A' ≤ c ∧ c ≤ 'F' then some (c.toNat - 'A'.toNat + 10)
  else none

def parseHex4 : List Char → Option (ℕ × List Char)
  | a :: b :: c :: d :: rest =>
    match hexVal a, hexVal b, hexVal c, hexVal d with
    | some x, some y, some z, some w => some (((x * 16 + y) * 16 + z) * 16 + w, rest)
    | _, _, _, _ => none
  | _ => none

/-- String body after the opening quote; `strict=False` lets raw control
characters through, while an unrecognised backslash escape is an error. -/
def parseStrBody : ℕ → List Char → List Char → Option (String × List Char)
  | 0, _, _ => none
  | fuel + 1, acc, s =>
    match s with
    | [] => none
    | c :: rest =>
      if c = '"' then some (⟨acc.reverse⟩, rest)
      else if c = '\\' then
        match rest with
        | [] => none
        | e :: rest2 =>
          if e = '"' then parseStrBody fuel ('"' :: acc) rest2
          else if e = '\\' then parseStrBody fuel ('\\' :: acc) rest2
          else if e = '/' then parseStrBody fuel ('/' :: acc) rest2
          else if e = 'b' then parseStrBody fuel (Char.ofNat 8 :: acc) rest2
          else if e = 'f' then parseStrBody fuel (Char.ofNat 12 :: acc) rest2
          else if e = 'n' then parseStrBody fuel ('\n' :: acc) rest2
          else if e = 'r' then parseStrBody fuel ('\r' :: acc) rest2
          else if e = 't' then parseStrBody fuel ('\t' :: acc) rest2
          else if e = 'u' then
            match parseHex4 rest2 with
            | some (n, rest3) => parseStrBody fuel (Char.ofNat n :: acc) rest3
            | none => none
          else none
      else parseStrBody fuel (c :: acc) rest

/-- JSON number lexeme: `-?(0|[1-9][0-9]*)(.[0-9]+)?([eE][+-]?[0-9]+)?`. -/
def parseNumber (s : List Char) : Option (String × List Char) :=
  let (sign, s1) := match s with
    | '-' :: r => (['-'], r)
    | _ => (([] : List Char), s)
  match s1 with
  | [] => none
  | c :: rest =>
    if ¬ c.isDigit then none
    else
      let (intPart, s2) :=
        if c = '0' then (['0'], rest)
        else s1.span Char.isDigit
      let (fracPart, s3) :=
        match s2 with
        | '.' :: r =>
          let (ds, r2) := r.span Char.isDigit
          if ds = [] then ((none : Option (List Char)), s2) else (some ('.' :: ds), r2)
        | _ => (none, s2)
      match fracPart with
      | none =>
        match s2 with
        | '.' :: _ => none
        | _ =>
          let (expPart, s4) :=
            match s2 with
            | e :: r =>
              if e = 'e' ∨ e = 'E' then
                let (sgn, r2) := match r with
                  | '+' :: r3 => (['+'], r3)
                  | '-' :: r3 => (['-'], r3)
                  | _ => (([] : List Char), r)
                let (ds, r3) := r2.span Char.isDigit
                if ds = [] then ((none : Option (List Char)), s2) else (some (e :: sgn ++ ds), r3)
              else (none, s2)
            | _ => (none, s2)
          some (⟨sign ++ intPart ++ expPart.getD []⟩, s4)
      | some fp =>
        let (expPart, s4) :=
          match s3 with
          | e :: r =>
            if e = 'e' ∨ e = 'E' then
              let (sgn, r2) := match r with
                | '+' :: r3 => (['+'], r3)
                | '-' :: r3 => (['-'], r3)
                | _ => (([] : List Char), r)
              let (ds, r3) := r2.span Char.isDigit
              if ds = [] then ((none : Option (List Char)), s3) else (some (e :: sgn ++ ds), r3)
            else (none, s3)
          | _ => (none, s3)
        some (⟨sign ++ intPart ++ fp ++ expPart.getD []⟩, s4)

/-- Dict insertion: an existing key is overwritten in place, a new key is
appended (Python dict construction order). -/
def objInsert (ms : List (String × JVal)) (k : String) (v : JVal) : List (String × JVal) :=
  if ms.any (fun p => p.1 = k) then ms.map (fun p => if p.1 = k then (k, v) else p)
  else ms ++ [(k, v)]

/-- Object member list, parameterised by the value parser. -/
def parseMembersWith (pv : List Char → Option (JVal × List Char)) :
    ℕ → List (String × JVal) → List Char → Option (JVal × List Char)
  | 0, _, _ => none
  | fuel + 1, acc, s =>
    match skipWs s with
    | [] => none
    | c :: rest =>
      if c = '"' then
        match parseStrBody (rest.length + 1) [] rest with
        | some (k, r1) =>
          match skipWs r1 with
          | ':' :: r2 =>
            match pv r2 with
            | some (v, r3) =>
              let acc2 := objInsert acc k v
              match skipWs r3 with
              | ',' :: r4 => parseMembersWith pv fuel acc2 r4
              | c2 :: r4 => if c2 = rbrace then some (.obj acc2, r4) else none
              | [] => none
            | none => none
          | _ => none
        | none => none
      else none

/-- Array element list, parameterised by the value parser. -/
def parseElemsWith (pv : List Char → Option (JVal × List Char)) :
    ℕ → List JVal → List Char → Option (JVal × List Char)
  | 0, _, _ => none
  | fuel + 1, acc, s =>
    match pv s with
    | some (v, r1) =>
      match skipWs r1 with
      | ',' :: r2 => parseElemsWith pv fuel (acc ++ [v]) r2
      | ']' :: r2 => some (.arr (acc ++ [v]), r2)
      | _ => none
    | none => none

/-- Recursive-descent JSON value parser (fuel bounds the nesting depth). -/
def parseVal : ℕ → List Char → Option (JVal × List Char)
  | 0, _ => none
  | fuel + 1, s0 =>
    let s := skipWs s0
    match s with
    | [] => none
    | c :: rest =>
      if c = '"' then
        match parseStrBody (rest.length + 1) [] rest with
        | some (str, r) => some (.str str, r)
        | none => none
      else if c = lbrace then
        match skipWs rest with
        | c2 :: r2 =>
          if c2 = rbrace then some (.obj [], r2)
          else parseMembersWith (fun t => parseVal fuel t) (rest.length + 1) [] rest
        | [] => none
      else if c = '[' then
        match skipWs rest with
        | ']' :: r2 => some (.arr [], r2)
        | _ => parseElemsWith (fun t => parseVal fuel t) (rest.length + 1) [] rest
      else if s.take 4 = "true".toList then some (.bool true, s.drop 4)
      else if s.take 5 = "false".toList then some (.bool false, s.drop 5)
      else if s.take 4 = "null".toList then some (.null, s.drop 4)
      else if s.take 3 = "NaN".toList then some (.num "nan", s.drop 3)
      else if s.take 8 = "Infinity".toList then some (.num "inf", s.drop 8)
      else if s.take 9 = "-Infinity".toList then some (.num "-inf", s.drop 9)
      else
        match parseNumber s with
        | some (lex, r) => some (.num lex, r)
        | none => none

/-- `json.loads(s, strict=False)`: the whole input must be consumed. -/
def jsonLoads (s : String) : Option JVal :=
  match parseVal (s.toList.length + 1) s.toList with
  | some (v, rest) => if skipWs rest = [] then some v else none
  | none => none

/-! Rendering of parsed values the way Python's f-strings do (`str()` at the
top level, `repr()` for elements nested in containers). -/

mutual
def jvalRepr : JVal → String
  | .null => "None"
  | .bool b => if b then "True" else "False"
  | .num lex => lex
  | .str s => "'" ++ s ++ "'"
  | .arr l => "[" ++ String.intercalate ", " (jvalReprList l) ++ "]"
  | .obj ms => ⟨[lbrace]⟩ ++ String.intercalate ", " (jvalReprMembers ms) ++ ⟨[rbrace]⟩

def jvalReprList : List JVal → List String
  | [] => []
  | v :: vs => jvalRepr v :: jvalReprList vs

def jvalReprMembers : List (String × JVal) → List String
  | [] => []
  | (k, v) :: ms => ("'" ++ k ++ "': " ++ jvalRepr v) :: jvalReprMembers ms
end

/-- Python `str()` of a decoded JSON value. -/
def jvalStr : JVal → String
  | .str s => s
  | v => jvalRepr v

/-- First-match association lookup (object keys are unique by construction). -/
def jlookup (ms : List (String × JVal)) (k : String) : Option JVal :=
  (ms.find? (fun p => p.1 = k)).map (fun p => p.2)

/-! ### Data model

`Exercise` records come from the external extractor (`source_file` holds the
file name read by `exercise.get('source_file').name`).  `Analysis` dicts come
from the external `ExerciseAnalyzer`; the embedded orchestrator reads the
scalar under the key `total_complexity` (the specification's data model calls
this scalar `math_complexity`), so the record keeps that scalar.  `Variation`
mirrors the result dicts of the generators; because the Python dicts may omit
keys, an `Option` wraps each key that some code path leaves out, with `none`
meaning "key absent" (for `original_label`, `some v` is a present key whose
value is `v`, itself optional because `exercise.get('label')` can be `None`).
-/

inductive FmVal where
  | s (v : String)
  | l (v : List String)
deriving DecidableEq

structure Exercise where
  label : Option String := none
  content : String := ""
  solution : Option String := none
  source_file : Option String := none
  frontmatter : List (String × FmVal) := []
deriving DecidableEq

structure Analysis where
  atype : String := ""
  solution_steps : ℕ := 0
  vars : List String := []
  concepts : List String := []
  total_complexity : ℚ := 0
deriving DecidableEq

structure Hit where
  content : String := ""
  similarity : ℚ := 0
  metadata : List (String × String) := []
  id : Option String := none
deriving DecidableEq

structure RagContextCounts where
  similar_exercises_count : ℕ
  related_concepts_count : ℕ
  reading_context_count : ℕ
deriving DecidableEq

structure Variation where
  variation_content : String
  variation_solution : String
  original_frontmatter : List (String × FmVal)
  original_label : Option (Option String) := none
  vtype : Option String := none
  rag_context : Option RagContextCounts := none
  rag_references : Option (List String) := none
deriving DecidableEq

/-- `RetrievedContext`: the `context` dict assembled by
`EnhancedVariationGenerator`; a `none` field is an absent key. -/
structure Ctx where
  similar_exercises : Option (List Hit) := none
  related_concepts : Option (List Hit) := none
  reading_context : Option (List Hit) := none
  complexity_examples : Option (List Hit) := none
  related_exercises : Option (List Hit) := none
deriving DecidableEq

/-- Python truthiness of the `context` dict (`if ... and context:`). -/
def Ctx.isEmptyDict (c : Ctx) : Bool :=
  c.similar_exercises.isNone && c.related_concepts.isNone && c.reading_context.isNone
    && c.complexity_examples.isNone && c.related_exercises.isNone

/-- The external RAG retriever facade: four independently failable channel
calls, each modelled as a function that can raise (`Except`). -/
structure Retriever where
  retrieve_similar_exercises : String → Option String → ℕ → Except String (List Hit)
  retrieve_related_concepts : List String → ℕ → Except String (List Hit)
  retrieve_reading_context : String → ℕ → Except String (List Hit)
  retrieve_by_complexity : ℚ → ℚ → ℕ → Except String (List Hit)

/-- The topic string `exercise.get('source_file', {}).name if hasattr(...) else ''`. -/
def exerciseTopic (ex : Exercise) : String := ex.source_file.getD ""

/-- Body of `EnhancedVariationGenerator._retrieve_context`'s single `try:`
block: the four channel calls in order, threaded through `Except` so that the
first raising channel aborts the remaining ones. -/
def retrieve_context_try (r : Retriever) (ex : Exercise) (an : Analysis) :
    Except String Ctx := do
  let similar ← r.retrieve_similar_exercises ex.content ex.label 5
  let c1 : Ctx := { similar_exercises := some similar }
  let c2 ←
    if an.concepts ≠ [] then do
      let related ← r.retrieve_related_concepts an.concepts 3
      pure { c1 with related_concepts := some related }
    else pure c1
  let topic := exerciseTopic ex
  let c3 ←
    if topic ≠ "" then do
      let reading ← r.retrieve_reading_context topic 2
      pure { c2 with reading_context := some reading }
    else pure c2
  let c4 ←
    if 0 < an.total_complexity then do
      let peers ← r.retrieve_by_complexity an.total_complexity (3 / 10 : ℚ) 3
      pure { c3 with complexity_examples := some peers }
    else pure c3
  pure c4

/-- `EnhancedVariationGenerator._retrieve_context`: no retriever means an
empty context; an exception anywhere inside the single `try:` block is caught
by the handler that reassigns `context = {}`, discarding every channel. -/
def retrieve_context (retriever : Option Retriever) (ex : Exercise) (an : Analysis) : Ctx :=
  match retriever with
  | none => {}
  | some r =>
    match retrieve_context_try r ex an with
    | .ok c => c
    | .error _ => {}

/-! ### Prompts and generation backends

The prompt builders produce long literal templates; the claims never inspect
the rendered text, so each builder is embedded as an injective constructor
carrying exactly the data the Python code interpolates at that call site.
The four provider calls are oracles `Prompt → Option String`, with `none`
standing for the `None` each `_call_*_api` returns after catching its own
errors; the enhanced generator's Gemini override returns `""` on failure
instead, which the embedding reproduces. -/

inductive Prompt where
  /-- `VariationGenerator._create_prompt exercise analysis`. -/
  | variation (ex : Exercise) (an : Analysis)
  /-- `_create_quiz_prompt` over the base generator's `context_info`. -/
  | quizVar (ex : Exercise)
  /-- `_create_quiz_prompt` over the enhanced generator's `context_info`
  (exercise text plus `format_context_dict(context)`). -/
  | quizVarEnhanced (ex : Exercise) (ctxStr : String)
  /-- `_create_quiz_prompt` over the creation-mode `context_info`
  (topic, tags, difficulty, `str(context)`). -/
  | quizCreation (topic : String) (tags : List String) (difficulty : String) (ctx : Ctx)
  /-- the solution prompt built from a generated `variation_content`. -/
  | solution (variationContent : String)
  /-- `EnhancedVariationGenerator._create_new_exercise_prompt`. -/
  | newExercise (topic : String) (tags : List String) (ctx : Ctx) (difficulty : String)
  /-- `ContextEnricher.create_enriched_prompt` (external module): the base
  prompt enriched with the retrieved context. -/
  | enriched (base : Prompt) (ex : Exercise) (an : Analysis) (ctx : Ctx)

structure GenEnv where
  openai : Prompt → Option String
  anthropic : Prompt → Option String
  localApi : Prompt → Option String
  gemini : Prompt → Option String
  /-- `ContextEnricher.format_context_dict` (external module). -/
  format_context_dict : Ctx → String

/-- `VariationGenerator._setup_api`: resolves the API key for the known
providers and merely logs a warning for an unknown one — the method always
returns normally, no exception is raised. -/
def setup_api (getenv : String → Option String) (provider : String) : Option String :=
  if provider = "openai" then getenv "OPENAI_API_KEY"
  else if provider = "anthropic" then getenv "ANTHROPIC_API_KEY"
  else if provider = "local" then some "not-needed"
  else if provider = "gemini" then getenv "GOOGLE_API_KEY"
  else none

/-- Provider dispatch of `VariationGenerator.generate_variation` (lines
361-371): the four known providers call their backend, anything else logs
`Proveedor de API no soportado` and leaves the content `None`. -/
def api_dispatch (env : GenEnv) (provider : String) (p : Prompt) : Option String :=
  if provider = "openai" then env.openai p
  else if provider = "anthropic" then env.anthropic p
  else if provider = "local" then env.localApi p
  else if provider = "gemini" then env.gemini p
  else none

/-- Provider dispatch of `EnhancedVariationGenerator.generate_variation` and
`generate_new_exercise_from_topic`: same four providers (no else branch, so
an unknown provider leaves `content = None`); the overridden Gemini call
returns `""` on failure rather than `None`. -/
def api_dispatch_enhanced (env : GenEnv) (provider : String) (p : Prompt) : Option String :=
  if provider = "openai" then env.openai p
  else if provider = "anthropic" then env.anthropic p
  else if provider = "gemini" then some ((env.gemini p).getD "")
  else if provider = "local" then env.localApi p
  else none

/-! ### Structural parsing of multiple-choice responses -/

/-- Stripping of markdown code fences before `json.loads`:
`content.replace(chr(96)*3 + "json", "").replace(chr(96)*3, "").strip()`. -/
def clean_quiz_content (content : String) : String :=
  pyStrip (pyReplace (pyReplace content "```json" "") "```" "")

/-- The backslash repair applied when the first `json.loads` fails:
`clean_content.replace(single, double).replace(double + quote, single + quote)`. -/
def backslash_repair (s : String) : String :=
  pyReplace (pyReplace s "\\" "\\\\") "\\\\\"" "\\\""

/-- Variation-mode quiz decoding (both `VariationGenerator.generate_variation`
and `EnhancedVariationGenerator.generate_variation`): `json.loads` on the
cleaned content; on `JSONDecodeError` exactly one retry on the
backslash-repaired content. -/
def quiz_parse_variation (content : String) : Option JVal :=
  let clean := clean_quiz_content content
  match jsonLoads clean with
  | some d => some d
  | none => jsonLoads (backslash_repair clean)

/-- Creation-mode quiz decoding (`generate_new_exercise_from_topic`): a single
`json.loads` on the cleaned content, with no repair retry. -/
def quiz_parse_creation (content : String) : Option JVal :=
  jsonLoads (clean_quiz_content content)

/-- Rendering of a decoded quiz object into `(variation_content,
variation_solution)`.  It mirrors the Python block exactly: `data` must be a
dict holding `question`, a dict `options`, `correct_option` and `explanation`;
a missing key, a non-dict `data` or non-dict `options` raises inside the
`try:` and so yields `none` (the raw-content fallback).  No constraint on the
number of options or on the correct option's letter is checked. -/
def formatQuiz (d : JVal) : Option (String × String) :=
  match d with
  | .obj ms =>
    match jlookup ms "question", jlookup ms "options",
          jlookup ms "correct_option", jlookup ms "explanation" with
    | some q, some (.obj opts), some co, some expl =>
      some (jvalStr q ++ "\n\n"
              ++ String.join (opts.map (fun p => "- **" ++ p.1 ++ ")** " ++ jvalStr p.2 ++ "\n")),
            "**Respuesta Correcta: " ++ jvalStr co ++ "**\n\n" ++ jvalStr expl)
    | _, _, _, _ => none
  | _ => none

/-! ### Base generator (`variation_generator.py`) -/

/-- The `(variation_content, variation_solution)` pair left behind by the
base generator's multiple-choice `try:` block.  Unlike the enhanced
generator's handler (which reassigns `variation_content = content`) and the
creation path, the base handler only logs, so the variables keep whatever the
block had assigned before raising:

* decode failure, or a decoded value that is not a dict or lacks `question`
  (the first subscript raises before any assignment): raw content and the
  placeholder solution;
* `question` read but `options` missing or without `.items()`: the partially
  formatted `question + blank line` and the placeholder solution;
* options formatted but `correct_option` or `explanation` missing (the
  solution f-string raises before assigning): formatted question and options
  with the placeholder solution;
* all keys present: fully formatted content and solution. -/
def base_quiz_render (content : String) : String × String :=
  match quiz_parse_variation content with
  | none => (content, "Solución no generada en modo simple.")
  | some d =>
    match d with
    | .obj ms =>
      match jlookup ms "question" with
      | none => (content, "Solución no generada en modo simple.")
      | some q =>
        let qline := jvalStr q ++ "\n\n"
        match jlookup ms "options" with
        | some (.obj opts) =>
          let full := qline
            ++ String.join (opts.map (fun p => "- **" ++ p.1 ++ ")** " ++ jvalStr p.2 ++ "\n"))
          match jlookup ms "correct_option" with
          | none => (full, "Solución no generada en modo simple.")
          | some co =>
            match jlookup ms "explanation" with
            | none => (full, "Solución no generada en modo simple.")
            | some expl =>
              (full, "**Respuesta Correcta: " ++ jvalStr co ++ "**\n\n" ++ jvalStr expl)
        | _ => (qline, "Solución no generada en modo simple.")
    | _ => (content, "Solución no generada en modo simple.")

/-- `VariationGenerator.generate_variation`.  The result dict carries
`variation_content`, `variation_solution`, `original_frontmatter` and `type`
— and no `original_label` key. -/
def generate_variation_base (provider : String) (env : GenEnv)
    (ex : Exercise) (an : Analysis) (etype : String) : Option Variation :=
  let prompt := if etype = "multiple_choice" then Prompt.quizVar ex else Prompt.variation ex an
  match api_dispatch env provider prompt with
  | none => none
  | some content =>
    if content = "" then none
    else
      let pr :=
        if etype = "multiple_choice" then base_quiz_render content
        else (content, "Solución no generada en modo simple.")
      some { variation_content := pr.1
             variation_solution := pr.2
             original_frontmatter := ex.frontmatter
             original_label := none
             vtype := some etype }

/-- `VariationGenerator.generate_variation_with_solution`: generates the
development variation, then dispatches the solution prompt over openai,
anthropic and local only (no gemini branch, `else: solution_content = None`);
a falsy solution leaves the placeholder untouched. -/
def generate_variation_with_solution_base (provider : String) (env : GenEnv)
    (ex : Exercise) (an : Analysis) : Option Variation :=
  match generate_variation_base provider env ex an "development" with
  | none => none
  | some v =>
    let sol? :=
      if provider = "openai" then env.openai (Prompt.solution v.variation_content)
      else if provider = "anthropic" then env.anthropic (Prompt.solution v.variation_content)
      else if provider = "local" then env.localApi (Prompt.solution v.variation_content)
      else none
    match strTruthy sol? with
    | some s => some { v with variation_solution := s }
    | none => some v

/-! ### Enhanced generator (`rag/enhanced_variation_generator.py`) -/

/-- Reference extracted from a similar-exercise hit:
`ex.get('metadata', {}).get('label') or ex.get('id')`, appended only if truthy. -/
def hit_ref_label (h : Hit) : Option String :=
  strTruthy (pyOrStr ((h.metadata.find? (fun p => p.1 = "label")).map (fun p => p.2)) h.id)

/-- Reference extracted from a reading-context hit:
`reading.get('metadata', {}).get('source') or reading.get('id')`. -/
def hit_ref_source (h : Hit) : Option String :=
  strTruthy (pyOrStr ((h.metadata.find? (fun p => p.1 = "source")).map (fun p => p.2)) h.id)

/-- `EnhancedVariationGenerator.generate_variation`.  Retrieves context, picks
the prompt by exercise type, dispatches, parses, and builds the result dict —
which always carries `original_label = exercise.get('label')` — attaching
`rag_context`/`rag_references` only when a retriever is set and the context
dict is non-empty. -/
def generate_variation_enhanced (provider : String) (env : GenEnv)
    (retriever : Option Retriever) (ex : Exercise) (an : Analysis) (etype : String) :
    Option Variation :=
  let context := retrieve_context retriever ex an
  let prompt :=
    if etype = "multiple_choice" then
      Prompt.quizVarEnhanced ex (env.format_context_dict context)
    else if retriever.isNone then Prompt.variation ex an
    else Prompt.enriched (Prompt.variation ex an) ex an context
  match api_dispatch_enhanced env provider prompt with
  | none => none
  | some content =>
    if content = "" then none
    else
      let pr :=
        if etype = "multiple_choice" then
          match (quiz_parse_variation content).bind formatQuiz with
          | some pr => pr
          | none => (content, "")
        else (content, "Solución pendiente...")
      let refs :=
        (context.similar_exercises.getD []).filterMap hit_ref_label
          ++ (context.reading_context.getD []).filterMap hit_ref_source
      some { variation_content := pr.1
             variation_solution := pr.2
             original_frontmatter := ex.frontmatter
             original_label := some ex.label
             vtype := some etype
             rag_context :=
               if retriever.isSome ∧ ¬ context.isEmptyDict then
                 some { similar_exercises_count := (context.similar_exercises.getD []).length
                        related_concepts_count := (context.related_concepts.getD []).length
                        reading_context_count := (context.reading_context.getD []).length }
               else none
             rag_references :=
               if retriever.isSome ∧ ¬ context.isEmptyDict ∧ refs ≠ [] then some refs
               else none }

/-- `EnhancedVariationGenerator.generate_variation_with_solution`: the
enhanced solution dispatch does include a gemini branch. -/
def generate_variation_with_solution_enhanced (provider : String) (env : GenEnv)
    (retriever : Option Retriever) (ex : Exercise) (an : Analysis) : Option Variation :=
  match generate_variation_enhanced provider env retriever ex an "development" with
  | none => none
  | some v =>
    let sol? :=
      if provider = "openai" then env.openai (Prompt.solution v.variation_content)
      else if provider = "anthropic" then env.anthropic (Prompt.solution v.variation_content)
      else if provider = "local" then env.localApi (Prompt.solution v.variation_content)
      else if provider = "gemini" then some ((env.gemini (Prompt.solution v.variation_content)).getD "")
      else none
    match strTruthy sol? with
    | some s => some { v with variation_solution := s }
    | none => some v

/-- `EnhancedVariationGenerator.generate_new_exercise_from_topic` (creation
mode).  The two retriever calls are not wrapped in any `try:`, so a raising
channel propagates out of the generator (hence the `Except` result).  The
returned dict has `original_frontmatter` holding the synthesized topic, tags,
difficulty and type, and no `original_label` or top-level `type` key. -/
def generate_new_exercise_from_topic (provider : String) (env : GenEnv)
    (retriever : Option Retriever) (topic : String) (tags : List String)
    (difficulty : String) (etype : String) : Except String (Option Variation) := do
  let context ←
    match retriever with
    | none => pure ({} : Ctx)
    | some r => do
      let reading ← r.retrieve_reading_context topic 3
      let related ← r.retrieve_related_concepts (tags ++ [topic]) 3
      pure { reading_context := some reading, related_exercises := some related : Ctx }
  let prompt :=
    if etype = "multiple_choice" then Prompt.quizCreation topic tags difficulty context
    else Prompt.newExercise topic tags context difficulty
  match api_dispatch_enhanced env provider prompt with
  | none => pure none
  | some content =>
    if content = "" then pure none
    else
      let pr :=
        if etype = "multiple_choice" then
          match (quiz_parse_creation content).bind formatQuiz with
          | some pr => pr
          | none => (content, "Verificar formato generado.")
        else
          match pySplit content "SOLUCIÓN REQUERIDA:" with
          | [a, b] => (pyStrip (pyReplace a "EJERCICIO NUEVO:" ""), pyStrip b)
          | _ => (content, "")
      pure (some
        { variation_content := pr.1
          variation_solution := pr.2
          original_frontmatter :=
            [("subject", .s topic), ("tags", .l tags),
             ("complexity", .s difficulty), ("type", .s etype)]
          original_label := none
          vtype := none })

/-! ### Validator -/

structure ValidationResult where
  is_valid : Bool
deriving DecidableEq

/-- Modelled from the spec: the classic `ComplexityValidator` (module
`complexity_validator`, absent from the embedded sources; only its call sites
appear in `evolutia.py`).  Per the specification's classic policy it re-runs
the Complexity Analyzer — itself external, abstracted as `analyze_score` —
on the parsed variation and sets `is_valid` iff the recomputed scalar
complexity score strictly exceeds the original analysis's score. -/
def complexity_validator_validate (analyze_score : String → ℚ)
    (original_analysis : Analysis) (v : Variation) : ValidationResult :=
  { is_valid := decide (original_analysis.total_complexity < analyze_score v.variation_content) }

/-! ### Orchestrator (`evolutia.py` `main`, step 3 onwards) -/

/-- The complexity key used by the ranking:
`exercises_with_analysis.sort(key=lambda x: x[1]['total_complexity'], reverse=True)`. -/
def cmplx (p : Exercise × Analysis) : ℚ := p.2.total_complexity

/-- The descending ranking relation induced by `reverse=True`. -/
def poolOrder (a b : Exercise × Analysis) : Prop := cmplx b ≤ cmplx a

instance : DecidableRel poolOrder :=
  fun a b => inferInstanceAs (Decidable (cmplx b ≤ cmplx a))

instance : IsTotal (Exercise × Analysis) poolOrder :=
  ⟨fun a b => le_total (cmplx b) (cmplx a)⟩

instance : IsTrans (Exercise × Analysis) poolOrder :=
  ⟨fun _ _ _ hab hbc => le_trans hbc hab⟩

/-- The stable complexity-descending sort of the analyzed pool. -/
def sort_by_complexity (pool : List (Exercise × Analysis)) : List (Exercise × Analysis) :=
  List.insertionSort poolOrder pool

/-- `all_exercises = [ex for ex in all_exercises if ex.get('label') in args.label]`. -/
def filter_by_labels (labels : List String) (pool : List (Exercise × Analysis)) :
    List (Exercise × Analysis) :=
  pool.filter (fun p => match p.1.label with
    | some l => labels.contains l
    | none => false)

/-- Candidate selection after sorting: with labels every filtered exercise is
kept; otherwise the top `num_ejercicios * 2` of the ranking. -/
def select_candidates (sorted : List (Exercise × Analysis)) (labelMode : Bool) (n : ℕ) :
    List (Exercise × Analysis) :=
  if labelMode then sorted else sorted.take (n * 2)

/-- `random.choice(seq)` with the run's randomness source abstracted into the
drawn index `r`; an empty sequence gives `none` (Python raises `IndexError`,
which the loop embedding turns into a crash of the run). -/
def random_choice {α : Type} (l : List α) (r : ℕ) : Option α :=
  l[r % l.length]?

/-- The slice sampled by the non-label loop:
`selected_exercises[:max(5, len(selected_exercises)//2)]`. -/
def selection_segment (selected : List (Exercise × Analysis)) : List (Exercise × Analysis) :=
  selected.take (max 5 (selected.length / 2))

/-- `random.choice(selected_exercises[:max(5, len(selected_exercises)//2)])`. -/
def select_base_exercise (selected : List (Exercise × Analysis)) (r : ℕ) :
    Option (Exercise × Analysis) :=
  random_choice (selection_segment selected) r

/-- Mutable state of the non-label acceptance loop. -/
structure LoopState where
  valid : List Variation
  attempts : ℕ
deriving DecidableEq

/-- Outcome of running the loop with some amount of fuel: `done` when the
`while` guard became false, `fuelOut` when fuel ran out with the guard still
true (the Python loop would keep iterating), `crashed` when an uncaught
exception escapes (empty pool at `random.choice`). -/
inductive LoopResult where
  | done (s : LoopState)
  | fuelOut (s : LoopState)
  | crashed (s : LoopState)
deriving DecidableEq

def LoopResult.state : LoopResult → LoopState
  | .done s => s
  | .fuelOut s => s
  | .crashed s => s

/-- The non-label acceptance loop (`evolutia.py` lines 584-641).  `gen`
bundles everything the `try:` block does up to obtaining `variation` for
iteration `k` (an `Except.error` is an exception raised mid-attempt);
`validate` is `validator.validate`, whose `is_valid` both the RAG and the
classic branches test.  The `except` handler ends in `continue`, which skips
the `attempts += 1` at the bottom of the loop body, so the error branch
recurses with `s` unchanged. -/
def run_variation_loop (n : ℕ) (selected : List (Exercise × Analysis)) (rand : ℕ → ℕ)
    (gen : ℕ → Exercise → Analysis → Except Unit (Option Variation))
    (validate : Exercise → Analysis → Variation → ValidationResult) :
    ℕ → ℕ → LoopState → LoopResult
  | 0, _, s =>
    if s.valid.length < n ∧ s.attempts < n * 3 then .fuelOut s else .done s
  | fuel + 1, k, s =>
    if s.valid.length < n ∧ s.attempts < n * 3 then
      match select_base_exercise selected (rand k) with
      | none => .crashed s
      | some p =>
        match gen k p.1 p.2 with
        | .error _ => run_variation_loop n selected rand gen validate fuel (k + 1) s
        | .ok none =>
          run_variation_loop n selected rand gen validate fuel (k + 1)
            { valid := s.valid, attempts := s.attempts + 1 }
        | .ok (some v) =>
          if (validate p.1 p.2 v).is_valid then
            run_variation_loop n selected rand gen validate fuel (k + 1)
              { valid := s.valid ++ [v], attempts := s.attempts + 1 }
          else
            run_variation_loop n selected rand gen validate fuel (k + 1)
              { valid := s.valid, attempts := s.attempts + 1 }
    else .done s

/-- The per-label retry loop (`while not success and attempt_count < 3`):
`gen count` is the guarded generation attempt number `count`; an exception or
a falsy variation increments `attempt_count` (the increment sits after the
`except` here, with no `continue`), a truthy variation is appended with no
validation step at all. -/
def label_attempt_loop (gen : ℕ → Except Unit (Option Variation)) :
    ℕ → ℕ → Option Variation
  | 0, _ => none
  | fuel + 1, count =>
    if count < 3 then
      match gen count with
      | .ok (some v) => some v
      | _ => label_attempt_loop gen fuel (count + 1)
    else none

/-- Body of the label-targeted `for` loop over the remaining targets, with
`acc` the `valid_variations` accumulated so far: each target runs its own
fresh 3-attempt retry loop and a successful generation is appended directly,
with no validation step. -/
def run_label_loop_from (gen : Exercise → Analysis → ℕ → Except Unit (Option Variation)) :
    List (Exercise × Analysis) → List Variation → List Variation
  | [], acc => acc
  | p :: rest, acc =>
    match label_attempt_loop (gen p.1 p.2) 3 0 with
    | some v => run_label_loop_from gen rest (acc ++ [v])
    | none => run_label_loop_from gen rest acc

/-- The label-targeted run (`evolutia.py` lines 550-580): every target
exercise is visited once, starting from an empty accepted list. -/
def run_label_loop (gen : Exercise → Analysis → ℕ → Except Unit (Option Variation))
    (targets : List (Exercise × Analysis)) : List Variation :=
  run_label_loop_from gen targets []

/-- `args.tema[i % len(args.tema)]`, the round-robin topic index. -/
def creation_topic_index (topics : List String) (i : ℕ) : ℕ := i % topics.length

/-- The base topic of creation attempt `i`. -/
def creation_topic_at (topics : List String) (i : ℕ) : String :=
  topics.getD (creation_topic_index topics i) ""

/-- The tag list of creation attempt `i`: explicit tags are rotated by the
same attempt index, otherwise the current topic doubles as the tag. -/
def creation_tags_at (topics tags : List String) (i : ℕ) : List String :=
  if tags ≠ [] then [tags.getD (i % tags.length) ""] else [creation_topic_at topics i]

/-- Creation loop body over the remaining indices (`for i in range(N)`): a
raising generation attempt propagates (nothing in the creation branch catches
it), `None` logs a warning and moves on, a dict is appended. -/
def run_creation_loop (gen : ℕ → String → List String → Except String (Option Variation))
    (topics tags : List String) : List ℕ → List Variation → Except String (List Variation)
  | [], acc => .ok acc
  | i :: rest, acc =>
    match gen i (creation_topic_at topics i) (creation_tags_at topics tags i) with
    | .error e => .error e
    | .ok (some v) => run_creation_loop gen topics tags rest (acc ++ [v])
    | .ok none => run_creation_loop gen topics tags rest acc

/-- The creation-mode run (`evolutia.py` lines 501-529). -/
def run_creation (gen : ℕ → String → List String → Except String (Option Variation))
    (topics tags : List String) (n : ℕ) : Except String (List Variation) :=
  run_creation_loop gen topics tags (List.range n) []

/-- The number of creation attempts whose base topic is topic number `t`. -/
def creation_base_topic_count (topics : List String) (t n : ℕ) : ℕ :=
  ((List.range n).filter (fun i => creation_topic_index topics i = t)).length

/-! ### Shared lemmas -/

lemma random_choice_mem {α : Type} {l : List α} {r : ℕ} {x : α}
    (h : random_choice l r = some x) : x ∈ l := by
  unfold random_choice at h
  exact List.getElem?_mem h

lemma random_choice_of_ne_nil {α : Type} {l : List α} (r : ℕ) (h : l ≠ []) :
    ∃ x, random_choice l r = some x := by
  have hpos : 0 < l.length := List.length_pos.mpr h
  have hlt : r % l.length < l.length := Nat.mod_lt _ hpos
  exact ⟨l[r % l.length], List.getElem?_eq_getElem hlt⟩

lemma selection_segment_ne_nil {selected : List (Exercise × Analysis)}
    (h : selected ≠ []) : selection_segment selected ≠ [] := by
  unfold selection_segment
  have hpos : 0 < selected.length := List.length_pos.mpr h
  have : 0 < (selected.take (max 5 (selected.length / 2))).length := by
    rw [List.length_take]
    exact lt_min (by omega) hpos
  exact List.ne_nil_of_length_pos this

lemma select_base_exercise_of_ne_nil {selected : List (Exercise × Analysis)} (r : ℕ)
    (h : selected ≠ []) : ∃ p, select_base_exercise selected r = some p :=
  random_choice_of_ne_nil r (selection_segment_ne_nil h)

/-- Every element the non-label loop appends was validated against the
`(exercise, analysis)` pair drawn for that iteration. -/
lemma run_variation_loop_accepts (n : ℕ) (selected : List (Exercise × Analysis))
    (rand : ℕ → ℕ) (gen : ℕ → Exercise → Analysis → Except Unit (Option Variation))
    (validate : Exercise → Analysis → Variation → ValidationResult) :
    ∀ fuel k s v, v ∈ (run_variation_loop n selected rand gen validate fuel k s).state.valid →
      v ∈ s.valid ∨ ∃ p ∈ selection_segment selected, (validate p.1 p.2 v).is_valid = true := by
  intro fuel
  induction fuel with
  | zero =>
    intro k s v hv
    unfold run_variation_loop at hv
    split at hv
    · exact Or.inl hv
    · exact Or.inl hv
  | succ fuel ih =>
    intro k s v hv
    unfold run_variation_loop at hv
    split at hv
    · split at hv
      · exact Or.inl hv
      · rename_i p hsel
        have hmem : p ∈ selection_segment selected := random_choice_mem hsel
        split at hv
        · exact ih (k + 1) s v hv
        · exact ih (k + 1) ⟨s.valid, s.attempts + 1⟩ v hv
        · rename_i w hgen
          split at hv
          · rename_i hval
            rcases ih (k + 1) ⟨s.valid ++ [w], s.attempts + 1⟩ v hv with hin | hex
            · rcases List.mem_append.mp hin with h1 | h2
              · exact Or.inl h1
              · have hvw : v = w := List.mem_singleton.mp h2
                exact Or.inr ⟨p, hmem, hvw ▸ hval⟩
            · exact Or.inr hex
          · exact ih (k + 1) ⟨s.valid, s.attempts + 1⟩ v hv
    · exact Or.inl hv

/-- The accepted list of the non-label loop never exceeds `n` entries. -/
lemma run_variation_loop_length (n : ℕ) (selected : List (Exercise × Analysis))
    (rand : ℕ → ℕ) (gen : ℕ → Exercise → Analysis → Except Unit (Option Variation))
    (validate : Exercise → Analysis → Variation → ValidationResult) :
    ∀ fuel k s, s.valid.length ≤ n →
      (run_variation_loop n selected rand gen validate fuel k s).state.valid.length ≤ n := by
  intro fuel
  induction fuel with
  | zero =>
    intro k s hs
    unfold run_variation_loop
    split <;> exact hs
  | succ fuel ih =>
    intro k s hs
    unfold run_variation_loop
    split
    · rename_i hguard
      split
      · exact hs
      · rename_i p hsel
        split
        · exact ih (k + 1) s hs
        · exact ih (k + 1) ⟨s.valid, s.attempts + 1⟩ hs
        · rename_i w hgen
          split
          · refine ih (k + 1) ⟨s.valid ++ [w], s.attempts + 1⟩ ?_
            show (s.valid ++ [w]).length ≤ n
            rw [List.length_append]
            simp only [List.length_singleton]
            omega
          · exact ih (k + 1) ⟨s.valid, s.attempts + 1⟩ hs
    · exact hs

/-- With a generator that always returns `None`, each iteration just burns an
attempt until the budget is exhausted. -/
lemma run_variation_loop_gen_none (n : ℕ) (selected : List (Exercise × Analysis))
    (rand : ℕ → ℕ) (validate : Exercise → Analysis → Variation → ValidationResult)
    (hne : selected ≠ []) :
    ∀ fuel k s, s.valid.length < n → s.attempts ≤ n * 3 → n * 3 ≤ s.attempts + fuel →
      run_variation_loop n selected rand (fun _ _ _ => .ok none) validate fuel k s
        = .done { valid := s.valid, attempts := n * 3 } := by
  intro fuel
  induction fuel with
  | zero =>
    intro k s hlen hle hge
    have heq : s.attempts = n * 3 := by omega
    unfold run_variation_loop
    rw [if_neg (by omega)]
    cases s
    simp_all
  | succ fuel ih =>
    intro k s hlen hle hge
    by_cases hatt : s.attempts < n * 3
    · unfold run_variation_loop
      rw [if_pos ⟨hlen, hatt⟩]
      obtain ⟨p, hp⟩ := select_base_exercise_of_ne_nil (rand k) hne
      simp only [hp]
      refine ih (k + 1) { valid := s.valid, attempts := s.attempts + 1 } hlen ?_ ?_
      · show s.attempts + 1 ≤ n * 3
        omega
      · show n * 3 ≤ s.attempts + 1 + fuel
        omega
    · have hEq : s.attempts = n * 3 := by omega
      unfold run_variation_loop
      rw [if_neg (by omega)]
      cases s
      simp_all

lemma run_label_loop_from_eq (gen : Exercise → Analysis → ℕ → Except Unit (Option Variation)) :
    ∀ (targets : List (Exercise × Analysis)) (acc : List Variation),
      run_label_loop_from gen targets acc
        = acc ++ targets.filterMap (fun p => label_attempt_loop (gen p.1 p.2) 3 0)
  | [], acc => by simp [run_label_loop_from]
  | p :: rest, acc => by
    unfold run_label_loop_from
    cases hx : label_attempt_loop (gen p.1 p.2) 3 0 with
    | none =>
      simp only [hx]
      rw [run_label_loop_from_eq gen rest acc]
      simp [List.filterMap_cons, hx]
    | some v =>
      simp only [hx]
      rw [run_label_loop_from_eq gen rest (acc ++ [v])]
      simp [List.filterMap_cons, hx]

/-- The label-targeted run visits each target exactly once, contributing at
most one accepted variation per target. -/
lemma run_label_loop_eq_filterMap
    (gen : Exercise → Analysis → ℕ → Except Unit (Option Variation))
    (targets : List (Exercise × Analysis)) :
    run_label_loop gen targets
      = targets.filterMap (fun p => label_attempt_loop (gen p.1 p.2) 3 0) := by
  unfold run_label_loop
  rw [run_label_loop_from_eq]
  simp

/-- A target's retry loop consults only attempt numbers 0, 1 and 2: its
3-attempt budget is its own and independent of everything else. -/
lemma label_attempt_loop_budget (g g2 : ℕ → Except Unit (Option Variation))
    (h : ∀ j, j < 3 → g j = g2 j) :
    label_attempt_loop g 3 0 = label_attempt_loop g2 3 0 := by
  have h0 := h 0 (by omega)
  have h1 := h 1 (by omega)
  have h2 := h 2 (by omega)
  simp only [label_attempt_loop, h0, h1, h2]

lemma run_creation_loop_length
    (gen : ℕ → String → List String → Except String (Option Variation))
    (topics tags : List String) :
    ∀ (l : List ℕ) (acc vs : List Variation),
      run_creation_loop gen topics tags l acc = .ok vs →
        vs.length ≤ acc.length + l.length := by
  intro l
  induction l with
  | nil =>
    intro acc vs h
    unfold run_creation_loop at h
    cases h
    simp
  | cons i rest ih =>
    intro acc vs h
    unfold run_creation_loop at h
    cases hg : gen i (creation_topic_at topics i) (creation_tags_at topics tags i) with
    | error e => rw [hg] at h; cases h
    | ok ov =>
      rw [hg] at h
      cases ov with
      | none =>
        have hlen := ih acc vs h
        simp only [List.length_cons]
        omega
      | some v =>
        have hlen := ih (acc ++ [v]) vs h
        simp only [List.length_append, List.length_singleton, List.length_cons,
          List.length_nil] at hlen ⊢
        omega

/-- Number of `i < n` with `i % T = t` (for `t < T`): the round-robin count. -/
lemma count_mod_eq (T t : ℕ) (hT : 0 < T) (ht : t < T) :
    ∀ n, ((List.range n).filter (fun i => i % T = t)).length
      = n / T + (if t < n % T then 1 else 0)
  | 0 => by simp
  | n + 1 => by
    have ih := count_mod_eq T t hT ht n
    rw [List.range_succ, List.filter_append, List.length_append, ih]
    have hr : n % T < T := Nat.mod_lt _ hT
    have hdm : T * (n / T) + n % T = n := Nat.div_add_mod n T
    rcases Nat.lt_or_ge (n % T + 1) T with hlt | hge
    · have h1 : n + 1 = T * (n / T) + (n % T + 1) := by omega
      have hdiv : (n + 1) / T = n / T := by
        rw [h1, Nat.mul_add_div hT, Nat.div_eq_of_lt hlt, Nat.add_zero]
      have hmod : (n + 1) % T = n % T + 1 := by
        rw [h1, Nat.mul_add_mod, Nat.mod_eq_of_lt hlt]
      rw [hdiv, hmod]
      by_cases hc : n % T = t <;> simp [List.filter_singleton, hc] <;>
        first
        | (split_ifs <;> omega)
        | omega
    · have hmul : T * (n / T + 1) = T * (n / T) + T := by ring
      have h1 : n + 1 = T * (n / T + 1) := by omega
      have hdiv : (n + 1) / T = n / T + 1 := by
        rw [h1, Nat.mul_div_cancel_left _ hT]
      have hmod : (n + 1) % T = 0 := by rw [h1]; exact Nat.mul_mod_right T _
      rw [hdiv, hmod]
      by_cases hc : n % T = t <;> simp [List.filter_singleton, hc] <;>
        first
        | (split_ifs <;> omega)
        | omega

/-- `(n + T - 1) / T` is the ceiling of `n / T`. -/
lemma ceil_div_eq (T n : ℕ) (hT : 0 < T) :
    (n + T - 1) / T = n / T + (if n % T = 0 then 0 else 1) := by
  have hr : n % T < T := Nat.mod_lt _ hT
  have hdm : T * (n / T) + n % T = n := Nat.div_add_mod n T
  by_cases h0 : n % T = 0
  · have h1 : n + T - 1 = T * (n / T) + (T - 1) := by omega
    have h2 : (T * (n / T) + (T - 1)) / T = n / T + (T - 1) / T := Nat.mul_add_div hT _ _
    have h3 : (T - 1) / T = 0 := Nat.div_eq_of_lt (by omega)
    rw [h1, h2, h3, if_pos h0]
  · have hmul : T * (n / T + 1) = T * (n / T) + T := by ring
    have h1 : n + T - 1 = T * (n / T + 1) + (n % T - 1) := by omega
    have h2 : (T * (n / T + 1) + (n % T - 1)) / T = (n / T + 1) + (n % T - 1) / T :=
      Nat.mul_add_div hT _ _
    have h3 : (n % T - 1) / T = 0 := Nat.div_eq_of_lt (by omega)
    rw [h1, h2, h3, if_neg h0]

/-- Dispatch falls through to `None` for a provider outside the adapter set. -/
lemma api_dispatch_unknown (env : GenEnv) (provider : String) (p : Prompt)
    (h : provider ∉ (["openai", "anthropic", "local", "gemini"] : List String)) :
    api_dispatch env provider p = none := by
  simp only [List.mem_cons, List.mem_singleton, not_or] at h
  obtain ⟨h1, h2, h3, h4, _⟩ := h
  simp [api_dispatch, h1, h2, h3, h4]

/-- An unknown provider makes every base generation attempt return `None`. -/
lemma generate_variation_base_unknown (env : GenEnv) (provider : String)
    (ex : Exercise) (an : Analysis) (etype : String)
    (h : provider ∉ (["openai", "anthropic", "local", "gemini"] : List String)) :
    generate_variation_base provider env ex an etype = none := by
  simp only [generate_variation_base, api_dispatch_unknown env provider _ h]

/-- Likewise for `_setup_api`: the unknown-provider branch leaves the key
unset (and, being a plain `else` that only logs, raises nothing). -/
lemma setup_api_unknown (getenv : String → Option String) (provider : String)
    (h : provider ∉ (["openai", "anthropic", "local", "gemini"] : List String)) :
    setup_api getenv provider = none := by
  simp only [List.mem_cons, List.mem_singleton, not_or] at h
  obtain ⟨h1, h2, h3, h4, _⟩ := h
  simp [setup_api, h1, h2, h3, h4]

/-- In development mode the base generator always returns the placeholder
solution text. -/
lemma generate_variation_base_dev_solution (provider : String) (env : GenEnv)
    (ex : Exercise) (an : Analysis) (v : Variation)
    (h : generate_variation_base provider env ex an "development" = some v) :
    v.variation_solution = "Solución no generada en modo simple." := by
  simp only [generate_variation_base, reduceIte] at h
  split at h
  · exact Option.noConfusion h
  · split at h
    · exact Option.noConfusion h
    · cases h
      rfl

/-! ### Claim C1 -/

def c1lowVar : Variation :=
  { variation_content := "variacion facil", variation_solution := "", original_frontmatter := [] }

def c1ex : Exercise := { label := some "ex1-05", content := "ejercicio dificil" }

def c1an : Analysis := { total_complexity := 10 }

/-- Analyzer stub under which the regenerated variation scores 1 < 10. -/
def c1score : String → ℚ := fun _ => 1

def c1gen : Exercise → Analysis → ℕ → Except Unit (Option Variation) :=
  fun _ _ _ => .ok (some c1lowVar)

/-- C1 counterexample: a label-targeted classic run appends the generated
variation directly — the label branch contains no validation call — so a
variation whose recomputed complexity score (1) is not greater than its
original's (10) still lands in the accepted set, refuting the claim for
label-targeted runs. -/
theorem c1_label_run_accepts_without_validation :
    run_label_loop c1gen [(c1ex, c1an)] = [c1lowVar]
    ∧ (complexity_validator_validate c1score c1an c1lowVar).is_valid = false :=
  ⟨rfl, rfl⟩

/-- C1 (amended): in classic-validation mode, every Variation accepted by the
NON-label acceptance loop was validated against the `(exercise, analysis)`
pair drawn for its iteration and its recomputed complexity score strictly
exceeds that original's score; label-targeted runs bypass the validator
entirely (see the counterexample). -/
theorem c1_classic_nonlabel_accepts_only_improvements
    (analyze_score : String → ℚ) (n : ℕ) (selected : List (Exercise × Analysis))
    (rand : ℕ → ℕ) (gen : ℕ → Exercise → Analysis → Except Unit (Option Variation))
    (fuel k : ℕ) (v : Variation)
    (hv : v ∈ (run_variation_loop n selected rand gen
        (fun _ an w => complexity_validator_validate analyze_score an w)
        fuel k { valid := [], attempts := 0 }).state.valid) :
    ∃ p ∈ selection_segment selected,
      cmplx p < analyze_score v.variation_content := by
  rcases run_variation_loop_accepts n selected rand gen _ fuel k _ v hv with hin | ⟨p, hp, hval⟩
  · simp at hin
  · exact ⟨p, hp, of_decide_eq_true hval⟩

def c1wVar : Variation :=
  { variation_content := "variacion mas compleja", variation_solution := "",
    original_frontmatter := [] }

def c1wScore : String → ℚ := fun _ => 5

def c1wAn : Analysis := { total_complexity := 1 }

def c1wEx : Exercise := { label := some "ex1-01", content := "base" }

def c1wGen : ℕ → Exercise → Analysis → Except Unit (Option Variation) :=
  fun _ _ _ => .ok (some c1wVar)

theorem c1_classic_nonlabel_accepts_only_improvements_witness :
    ∃ p ∈ selection_segment [(c1wEx, c1wAn)], cmplx p < c1wScore c1wVar.variation_content :=
  c1_classic_nonlabel_accepts_only_improvements c1wScore 1 [(c1wEx, c1wAn)] (fun _ => 0)
    c1wGen 5 0 c1wVar (by decide)

/-! ### Claim C2 -/

/-- C2: the claim is right and the code is wrong.  The `except` handler of the
non-label loop ends in `continue`, which skips the `attempts += 1` at the
bottom of the loop body; with a generator that raises on every attempt the
loop state never changes and the loop never reaches the `n * 3` budget — for
any amount of fuel it is still running (`fuelOut`) with the original state. -/
theorem c2_exception_never_counts_attempt
    (n : ℕ) (selected : List (Exercise × Analysis)) (rand : ℕ → ℕ)
    (validate : Exercise → Analysis → Variation → ValidationResult)
    (fuel k : ℕ) (s : LoopState)
    (hne : selected ≠ []) (hlen : s.valid.length < n) (hatt : s.attempts < n * 3) :
    run_variation_loop n selected rand (fun _ _ _ => .error ()) validate fuel k s
      = .fuelOut s := by
  induction fuel generalizing k with
  | zero =>
    unfold run_variation_loop
    rw [if_pos ⟨hlen, hatt⟩]
  | succ fuel ih =>
    unfold run_variation_loop
    rw [if_pos ⟨hlen, hatt⟩]
    obtain ⟨p, hp⟩ := select_base_exercise_of_ne_nil (rand k) hne
    simp only [hp]
    exact ih (k + 1)

def c2ex : Exercise := { label := some "ex2-01", content := "base" }

def c2an : Analysis := { total_complexity := 3 }

theorem c2_exception_never_counts_attempt_witness :
    run_variation_loop 1 [(c2ex, c2an)] (fun _ => 0) (fun _ _ _ => .error ())
      (fun _ an w => complexity_validator_validate (fun _ => 0) an w) 100 0
      { valid := [], attempts := 0 }
      = .fuelOut { valid := [], attempts := 0 } :=
  c2_exception_never_counts_attempt 1 [(c2ex, c2an)] (fun _ => 0)
    (fun _ an w => complexity_validator_validate (fun _ => 0) an w) 100 0
    { valid := [], attempts := 0 } (by decide) (by decide) (by decide)

/-! ### Claim C5 -/

def c5env : GenEnv :=
  { openai := fun _ => some "texto generado", anthropic := fun _ => some "texto generado",
    localApi := fun _ => some "texto generado", gemini := fun _ => some "texto generado",
    format_context_dict := fun _ => "" }

def c5ex : Exercise := { label := some "ex5-01", content := "base" }

def c5an : Analysis := { total_complexity := 2 }

def c5getenv : String → Option String := fun _ => some "sk-123"

/-- C5 counterexample: with the provider name "unsupported" nothing fatal
happens before the loop — `_setup_api` returns normally with no key set, and
the acceptance loop runs its full 3-attempt budget (each attempt dispatching
to the unknown provider and getting `None` back, a retried failure), ending
with zero accepted variations rather than aborting before any attempt. -/
theorem c5_unknown_provider_attempts_still_run :
    run_variation_loop 1 [(c5ex, c5an)] (fun _ => 0)
      (fun _ ex an => .ok (generate_variation_base "unsupported" c5env ex an "development"))
      (fun _ an w => complexity_validator_validate (fun _ => 3) an w) 10 0
      { valid := [], attempts := 0 }
      = .done { valid := [], attempts := 3 }
    ∧ generate_variation_base "unsupported" c5env c5ex c5an "development" = none
    ∧ setup_api c5getenv "unsupported" = none :=
  ⟨rfl, rfl, rfl⟩

/-- C5 (amended): a provider identifier outside the adapter set is not a
fatal configuration error: `_setup_api` merely leaves the key unset, every
generation attempt with that provider returns `None` and is counted as a
rejected attempt, and the non-label loop therefore exhausts its whole
`n * 3` budget with nothing accepted. -/
theorem c5_unknown_provider_is_retried_failure
    (provider : String) (envs : ℕ → GenEnv) (getenv : String → Option String)
    (etype : String) (n : ℕ) (selected : List (Exercise × Analysis)) (rand : ℕ → ℕ)
    (validate : Exercise → Analysis → Variation → ValidationResult)
    (fuel k : ℕ) (s : LoopState)
    (hp : provider ∉ (["openai", "anthropic", "local", "gemini"] : List String))
    (hne : selected ≠ []) (hlen : s.valid.length < n) (hle : s.attempts ≤ n * 3)
    (hge : n * 3 ≤ s.attempts + fuel) :
    setup_api getenv provider = none
    ∧ (∀ ex an, generate_variation_base provider (envs k) ex an etype = none)
    ∧ run_variation_loop n selected rand
        (fun j ex an => .ok (generate_variation_base provider (envs j) ex an etype))
        validate fuel k s
      = .done { valid := s.valid, attempts := n * 3 } := by
  refine ⟨setup_api_unknown getenv provider hp,
    fun ex an => generate_variation_base_unknown _ _ _ _ _ hp, ?_⟩
  have hfun : (fun (j : ℕ) ex an =>
        Except.ok (ε := Unit) (generate_variation_base provider (envs j) ex an etype))
      = (fun _ _ _ => .ok none) := by
    funext j ex an
    rw [generate_variation_base_unknown _ _ _ _ _ hp]
  rw [hfun]
  exact run_variation_loop_gen_none n selected rand validate hne fuel k s hlen hle hge

theorem c5_unknown_provider_is_retried_failure_witness :
    setup_api c5getenv "unsupported" = none
    ∧ run_variation_loop 1 [(c5ex, c5an)] (fun _ => 0)
        (fun j ex an =>
          .ok (generate_variation_base "unsupported" ((fun _ => c5env) j) ex an "development"))
        (fun _ an w => complexity_validator_validate (fun _ => 3) an w) 3 0
        { valid := [], attempts := 0 }
      = .done { valid := [], attempts := 3 } :=
  ⟨(c5_unknown_provider_is_retried_failure "unsupported" (fun _ => c5env) c5getenv
      "development" 1 [(c5ex, c5an)] (fun _ => 0)
      (fun _ an w => complexity_validator_validate (fun _ => 3) an w) 3 0
      { valid := [], attempts := 0 } (by decide) (by decide) (by decide) (by decide)
      (by decide)).1,
   (c5_unknown_provider_is_retried_failure "unsupported" (fun _ => c5env) c5getenv
      "development" 1 [(c5ex, c5an)] (fun _ => 0)
      (fun _ an w => complexity_validator_validate (fun _ => 3) an w) 3 0
      { valid := [], attempts := 0 } (by decide) (by decide) (by decide) (by decide)
      (by decide)).2.2⟩

/-! ### Claim C3 -/

def c3hitS : Hit := { content := "ejercicio similar", similarity := 9 / 10 }

def c3hitR : Hit := { content := "concepto relacionado", similarity := 8 / 10 }

/-- A retriever whose reading-context channel raises while the similar and
related channels succeed with non-empty results. -/
def c3retr : Retriever :=
  { retrieve_similar_exercises := fun _ _ _ => .ok [c3hitS]
    retrieve_related_concepts := fun _ _ => .ok [c3hitR]
    retrieve_reading_context := fun _ _ => .error "indice no disponible"
    retrieve_by_complexity := fun _ _ _ => .ok [] }

def c3ex : Exercise :=
  { label := some "ex3-01", content := "contenido", source_file := some "lectura.md" }

def c3an : Analysis := { concepts := ["gradiente"], total_complexity := 2 }

/-- C3 counterexample: with only the reading-context channel raising, the
similar-exercises and related-concepts channels did succeed with populated
lists, yet `_retrieve_context` returns the empty context — the single
`except` handler reassigns `context = {}`, discarding every already-filled
channel instead of degrading just the failed one. -/
theorem c3_reading_failure_discards_other_channels :
    c3retr.retrieve_similar_exercises c3ex.content c3ex.label 5 = .ok [c3hitS]
    ∧ c3retr.retrieve_related_concepts c3an.concepts 3 = .ok [c3hitR]
    ∧ retrieve_context_try c3retr c3ex c3an = .error "indice no disponible"
    ∧ retrieve_context (some c3retr) c3ex c3an = {}
    ∧ ({} : Ctx).similar_exercises = none
    ∧ ({} : Ctx).related_concepts = none :=
  ⟨rfl, rfl, rfl, rfl, rfl, rfl⟩

/-- C3 (amended): retrieval degrades without letting any exception escape,
but wholesale rather than per channel: whenever a channel raises (here the
reading-context channel, with the earlier channels having succeeded), the
handler discards the whole context and `retrieve` returns the empty
RetrievedContext; with no retriever configured it likewise returns the empty
RetrievedContext. -/
theorem c3_retrieve_degrades_wholesale
    (r : Retriever) (ex : Exercise) (an : Analysis)
    (simHits relHits : List Hit) (err : String)
    (hsim : r.retrieve_similar_exercises ex.content ex.label 5 = .ok simHits)
    (hcon : an.concepts ≠ [])
    (hrel : r.retrieve_related_concepts an.concepts 3 = .ok relHits)
    (htop : exerciseTopic ex ≠ "")
    (hread : r.retrieve_reading_context (exerciseTopic ex) 2 = .error err) :
    retrieve_context (some r) ex an = {}
    ∧ (∀ ex2 an2, retrieve_context none ex2 an2 = {}) := by
  refine ⟨?_, fun ex2 an2 => rfl⟩
  have htry : retrieve_context_try r ex an = .error err := by
    simp [retrieve_context_try, hsim, hcon, hrel, htop, hread, Bind.bind, Except.bind,
      Pure.pure, Except.pure]
  simp [retrieve_context, htry]

theorem c3_retrieve_degrades_wholesale_witness :
    retrieve_context (some c3retr) c3ex c3an = {} :=
  (c3_retrieve_degrades_wholesale c3retr c3ex c3an [c3hitS] [c3hitR]
    "indice no disponible" rfl (by decide) rfl (by decide) rfl).1

/-! ### Claim C4 -/

def c4env : GenEnv :=
  { openai := fun _ => some "variacion generada"
    anthropic := fun _ => some "variacion generada"
    localApi := fun _ => some "variacion generada"
    gemini := fun _ => some "variacion generada"
    format_context_dict := fun _ => "" }

def c4ex : Exercise :=
  { label := some "ex4-01", content := "base", frontmatter := [("subject", .s "tema")] }

def c4an : Analysis := { total_complexity := 4 }

def c4dummy : Variation :=
  { variation_content := "", variation_solution := "", original_frontmatter := [] }

/-- C4 counterexample: a successful variation-mode generation by the BASE
generator yields a dict with no `original_label` key at all (the outer `some`
shows success, the inner `none` the absent key), refuting "every Variation
produced in variation mode carries exactly one original exercise label ...
for every generator". -/
theorem c4_base_variation_lacks_original_label :
    (generate_variation_base "openai" c4env c4ex c4an "development").map
      Variation.original_label = some none :=
  rfl

lemma c4_enhanced_label (provider : String) (env : GenEnv) (retr : Option Retriever)
    (ex : Exercise) (an : Analysis) (etype : String) (v : Variation)
    (h : generate_variation_enhanced provider env retr ex an etype = some v) :
    v.original_label = some ex.label := by
  simp only [generate_variation_enhanced] at h
  split at h
  · exact Option.noConfusion h
  · split at h
    · exact Option.noConfusion h
    · cases h
      rfl

lemma c4_enhanced_with_solution_label (provider : String) (env : GenEnv)
    (retr : Option Retriever) (ex : Exercise) (an : Analysis) (v : Variation)
    (h : generate_variation_with_solution_enhanced provider env retr ex an = some v) :
    v.original_label = some ex.label := by
  simp only [generate_variation_with_solution_enhanced] at h
  split at h
  · exact Option.noConfusion h
  · rename_i w hw
    have hlab : w.original_label = some ex.label := c4_enhanced_label _ _ _ _ _ _ _ hw
    split at h
    · cases h
      exact hlab
    · cases h
      exact hlab

lemma c4_base_label (provider : String) (env : GenEnv) (ex : Exercise) (an : Analysis)
    (etype : String) (v : Variation)
    (h : generate_variation_base provider env ex an etype = some v) :
    v.original_label = none := by
  simp only [generate_variation_base] at h
  split at h
  · exact Option.noConfusion h
  · split at h
    · exact Option.noConfusion h
    · cases h
      rfl

lemma c4_base_with_solution_label (provider : String) (env : GenEnv)
    (ex : Exercise) (an : Analysis) (v : Variation)
    (h : generate_variation_with_solution_base provider env ex an = some v) :
    v.original_label = none := by
  simp only [generate_variation_with_solution_base] at h
  split at h
  · exact Option.noConfusion h
  · rename_i w hw
    have hlab : w.original_label = none := c4_base_label _ _ _ _ _ _ hw
    split at h
    · cases h
      exact hlab
    · cases h
      exact hlab

lemma c4_creation_frontmatter (provider : String) (env : GenEnv) (retr : Option Retriever)
    (topic : String) (tags : List String) (difficulty etype : String) (v : Variation)
    (h : generate_new_exercise_from_topic provider env retr topic tags difficulty etype
      = .ok (some v)) :
    v.original_label = none
    ∧ v.original_frontmatter =
        [("subject", .s topic), ("tags", .l tags),
         ("complexity", .s difficulty), ("type", .s etype)] := by
  simp only [generate_new_exercise_from_topic, Bind.bind, Except.bind, Pure.pure,
    Except.pure] at h
  repeat' split at h
  all_goals simp_all
  all_goals (cases h; exact ⟨rfl, rfl⟩)

/-- C4 (amended): label provenance differs by generator.  The RAG-enhanced
generator's variation-mode results always carry an `original_label` key
holding `exercise.get('label')`; the base generator's results carry no
`original_label` key at all; creation-mode results carry no `original_label`
and their `original_frontmatter` holds exactly the synthesized topic, tags,
difficulty and exercise type. -/
theorem c4_label_provenance_by_generator (provider : String) (env : GenEnv)
    (retr : Option Retriever) (ex : Exercise) (an : Analysis)
    (topic : String) (tags : List String) (difficulty etype : String) :
    (∀ v, generate_variation_enhanced provider env retr ex an etype = some v →
        v.original_label = some ex.label)
    ∧ (∀ v, generate_variation_with_solution_enhanced provider env retr ex an = some v →
        v.original_label = some ex.label)
    ∧ (∀ v, generate_variation_base provider env ex an etype = some v →
        v.original_label = none)
    ∧ (∀ v, generate_variation_with_solution_base provider env ex an = some v →
        v.original_label = none)
    ∧ (∀ v, generate_new_exercise_from_topic provider env retr topic tags difficulty etype
          = .ok (some v) →
        v.original_label = none
        ∧ v.original_frontmatter =
            [("subject", .s topic), ("tags", .l tags),
             ("complexity", .s difficulty), ("type", .s etype)]) :=
  ⟨fun v h => c4_enhanced_label _ _ _ _ _ _ _ h,
   fun v h => c4_enhanced_with_solution_label _ _ _ _ _ _ h,
   fun v h => c4_base_label _ _ _ _ _ _ h,
   fun v h => c4_base_with_solution_label _ _ _ _ _ h,
   fun v h => c4_creation_frontmatter _ _ _ _ _ _ _ _ h⟩

theorem c4_label_provenance_by_generator_witness :
    ((generate_variation_enhanced "openai" c4env none c4ex c4an "development").getD
        c4dummy).original_label = some c4ex.label
    ∧ ((generate_variation_base "openai" c4env c4ex c4an "development").getD
        c4dummy).original_label = none
    ∧ (((generate_new_exercise_from_topic "openai" c4env none "tema" ["tag"] "alta"
          "development").toOption.getD (some c4dummy)).getD c4dummy).original_frontmatter
        = [("subject", .s "tema"), ("tags", .l ["tag"]),
           ("complexity", .s "alta"), ("type", .s "development")] :=
  ⟨(c4_label_provenance_by_generator "openai" c4env none c4ex c4an "tema" ["tag"] "alta"
      "development").1 _ rfl,
   (c4_label_provenance_by_generator "openai" c4env none c4ex c4an "tema" ["tag"] "alta"
      "development").2.2.1 _ rfl,
   ((c4_label_provenance_by_generator "openai" c4env none c4ex c4an "tema" ["tag"] "alta"
      "development").2.2.2.2 _ rfl).2⟩

/-! ### Claim C6 -/

/-- The options object of the decoded variation-mode quiz response. -/
def quiz_parsed_options (content : String) : Option (List (String × JVal)) :=
  match quiz_parse_variation content with
  | some (.obj ms) =>
    match jlookup ms "options" with
    | some (.obj opts) => some opts
    | _ => none
  | _ => none

/-- The `correct_option` value of the decoded variation-mode quiz response. -/
def quiz_parsed_correct (content : String) : Option JVal :=
  match quiz_parse_variation content with
  | some (.obj ms) => jlookup ms "correct_option"
  | _ => none

/-- A syntactically valid quiz JSON carrying only two options, labelled A and
E, with correct option E. -/
def c6raw : String :=
  "\x7b\"question\":\"q\",\"options\":\x7b\"A\":\"x\",\"E\":\"y\"\x7d,\"correct_option\":\"E\",\"explanation\":\"e\"\x7d"

def c6ex : Exercise := { label := some "ex6-01", content := "base" }

def c6an : Analysis := { total_complexity := 2 }

/-- An environment whose backends answer every prompt with `c6raw`. -/
def c6envRaw : GenEnv :=
  { openai := fun _ => some c6raw
    anthropic := fun _ => some c6raw
    localApi := fun _ => some c6raw
    gemini := fun _ => some c6raw
    format_context_dict := fun _ => "" }

/-- C6 counterexample: the decode pipeline accepts this response outright —
two options and a correct option of "E" — and the base generator turns it
into a fully formatted accepted item, so a successful parse does not
guarantee exactly 4 options or a correct option among A-D; the code checks
neither. -/
theorem c6_successful_parse_without_four_options :
    quiz_parsed_options c6raw = some [("A", .str "x"), ("E", .str "y")]
    ∧ (quiz_parsed_options c6raw).map List.length = some 2
    ∧ quiz_parsed_correct c6raw = some (.str "E")
    ∧ generate_variation_base "openai" c6envRaw c6ex c6an "multiple_choice"
        = some { variation_content := "q\n\n- **A)** x\n- **E)** y\n"
                 variation_solution := "**Respuesta Correcta: E**\n\ne"
                 original_frontmatter := c6ex.frontmatter
                 original_label := none
                 vtype := some "multiple_choice" }
    ∧ decide (("E" : String) ∈ (["A", "B", "C", "D"] : List String)) = false :=
  ⟨rfl, rfl, rfl, rfl, rfl⟩

/-- C6 (amended): in variation mode a failed `json.loads` is retried exactly
once on the backslash-repaired content, while creation mode has no repair
retry.  A response that fails decoding or formatting still yields an item
(flagged by the placeholder solution, never dropped), but what the item
holds depends on the generator: the enhanced generator's handler resets to
the raw response text (empty solution), whereas the base generator's handler
does not reset, so the base item keeps the raw response only when decoding
itself fails (or the decoded value has no usable `question`), and keeps the
partially formatted text assigned before the failing key access when a
decoded dict lacks `options`, `correct_option` or `explanation`.  A fully
successful decode yields the item formatted from whatever
question/options/correct_option/explanation the JSON carried, with no check
of the option count or of the correct option's letter. -/
theorem c6_repair_once_and_raw_fallback (content : String) (d : JVal)
    (provider : String) (env : GenEnv) (ex : Exercise) (an : Analysis)
    (c : String) (ms : List (String × JVal)) (q : JVal) :
    (jsonLoads (clean_quiz_content content) = some d →
        quiz_parse_variation content = some d)
    ∧ (jsonLoads (clean_quiz_content content) = none →
        quiz_parse_variation content
          = jsonLoads (backslash_repair (clean_quiz_content content)))
    ∧ (jsonLoads (clean_quiz_content content) = none → quiz_parse_creation content = none)
    ∧ (api_dispatch_enhanced env provider
          (Prompt.quizVarEnhanced ex (env.format_context_dict (retrieve_context none ex an)))
          = some c → c ≠ "" →
        (quiz_parse_variation c).bind formatQuiz = none →
        generate_variation_enhanced provider env none ex an "multiple_choice"
          = some { variation_content := c
                   variation_solution := ""
                   original_frontmatter := ex.frontmatter
                   original_label := some ex.label
                   vtype := some "multiple_choice" })
    ∧ (api_dispatch env provider (Prompt.quizVar ex) = some c → c ≠ "" →
        quiz_parse_variation c = none →
        generate_variation_base provider env ex an "multiple_choice"
          = some { variation_content := c
                   variation_solution := "Solución no generada en modo simple."
                   original_frontmatter := ex.frontmatter
                   original_label := none
                   vtype := some "multiple_choice" })
    ∧ (api_dispatch env provider (Prompt.quizVar ex) = some c → c ≠ "" →
        quiz_parse_variation c = some (.obj ms) →
        jlookup ms "question" = some q →
        jlookup ms "options" = none →
        generate_variation_base provider env ex an "multiple_choice"
          = some { variation_content := jvalStr q ++ "\n\n"
                   variation_solution := "Solución no generada en modo simple."
                   original_frontmatter := ex.frontmatter
                   original_label := none
                   vtype := some "multiple_choice" })
    ∧ (∀ opts co expl, api_dispatch env provider (Prompt.quizVar ex) = some c → c ≠ "" →
        quiz_parse_variation c = some (.obj ms) →
        jlookup ms "question" = some q →
        jlookup ms "options" = some (.obj opts) →
        jlookup ms "correct_option" = some co →
        jlookup ms "explanation" = some expl →
        generate_variation_base provider env ex an "multiple_choice"
          = some { variation_content := jvalStr q ++ "\n\n"
                     ++ String.join (opts.map (fun p =>
                          "- **" ++ p.1 ++ ")** " ++ jvalStr p.2 ++ "\n"))
                   variation_solution := "**Respuesta Correcta: " ++ jvalStr co
                     ++ "**\n\n" ++ jvalStr expl
                   original_frontmatter := ex.frontmatter
                   original_label := none
                   vtype := some "multiple_choice" }) := by
  refine ⟨?_, ?_, ?_, ?_, ?_, ?_, ?_⟩
  · intro h
    simp [quiz_parse_variation, h]
  · intro h
    simp [quiz_parse_variation, h]
  · intro h
    simpa [quiz_parse_creation] using h
  · intro hd hc hp
    simp only [retrieve_context] at hd
    simp [generate_variation_enhanced, retrieve_context, hd, hc, hp]
  · intro hd hc hp
    simp [generate_variation_base, base_quiz_render, hd, hc, hp]
  · intro hd hc hp hq hopt
    simp [generate_variation_base, base_quiz_render, hd, hc, hp, hq, hopt]
  · intro opts co expl hd hc hp hq hopt hco hexpl
    simp [generate_variation_base, base_quiz_render, hd, hc, hp, hq, hopt, hco, hexpl]

def c6env : GenEnv :=
  { openai := fun _ => some "respuesta sin JSON"
    anthropic := fun _ => some "respuesta sin JSON"
    localApi := fun _ => some "respuesta sin JSON"
    gemini := fun _ => some "respuesta sin JSON"
    format_context_dict := fun _ => "" }

/-- An environment answering with a decodable dict that only has `question`. -/
def c6envQ : GenEnv :=
  { openai := fun _ => some "\x7b\"question\":\"q\"\x7d"
    anthropic := fun _ => some "\x7b\"question\":\"q\"\x7d"
    localApi := fun _ => some "\x7b\"question\":\"q\"\x7d"
    gemini := fun _ => some "\x7b\"question\":\"q\"\x7d"
    format_context_dict := fun _ => "" }

/-- A quiz JSON that fails `json.loads` as-is (the invalid escape in
`$\alpha$`) but decodes after the backslash-doubling repair. -/
def c6fix : String :=
  "\x7b\"question\":\"$\\alpha$\",\"options\":\x7b\"A\":\"a\",\"B\":\"b\",\"C\":\"c\",\"D\":\"d\"\x7d,\"correct_option\":\"A\",\"explanation\":\"e\"\x7d"

theorem c6_repair_once_and_raw_fallback_witness :
    quiz_parse_variation c6fix
      = jsonLoads (backslash_repair (clean_quiz_content c6fix))
    ∧ (quiz_parse_variation c6fix).isSome = true
    ∧ generate_variation_enhanced "openai" c6env none c6ex c6an "multiple_choice"
        = some { variation_content := "respuesta sin JSON"
                 variation_solution := ""
                 original_frontmatter := c6ex.frontmatter
                 original_label := some c6ex.label
                 vtype := some "multiple_choice" }
    ∧ generate_variation_base "openai" c6env c6ex c6an "multiple_choice"
        = some { variation_content := "respuesta sin JSON"
                 variation_solution := "Solución no generada en modo simple."
                 original_frontmatter := c6ex.frontmatter
                 original_label := none
                 vtype := some "multiple_choice" }
    ∧ generate_variation_base "openai" c6envQ c6ex c6an "multiple_choice"
        = some { variation_content := "q\n\n"
                 variation_solution := "Solución no generada en modo simple."
                 original_frontmatter := c6ex.frontmatter
                 original_label := none
                 vtype := some "multiple_choice" } :=
  ⟨(c6_repair_once_and_raw_fallback c6fix JVal.null "openai" c6env c6ex c6an ""
      [] JVal.null).2.1 rfl,
   rfl,
   (c6_repair_once_and_raw_fallback c6fix JVal.null "openai" c6env c6ex c6an
      "respuesta sin JSON" [] JVal.null).2.2.2.1 rfl (by decide) rfl,
   (c6_repair_once_and_raw_fallback c6fix JVal.null "openai" c6env c6ex c6an
      "respuesta sin JSON" [] JVal.null).2.2.2.2.1 rfl (by decide) rfl,
   (c6_repair_once_and_raw_fallback c6fix JVal.null "openai" c6envQ c6ex c6an
      "\x7b\"question\":\"q\"\x7d" [("question", JVal.str "q")]
      (JVal.str "q")).2.2.2.2.2.1 rfl (by decide) rfl rfl rfl⟩

/-! ### Claim C7 -/

def labels_of (l : List (Exercise × Analysis)) : List (Option String) :=
  l.map (fun p => p.1.label)

def c7pool : List (Exercise × Analysis) :=
  [({ label := some "ex1", content := "a" }, { total_complexity := 2 })]

def c7labels : List String := ["ex1", "ex2"]

/-- C7 counterexample: with requested labels {ex1, ex2} and a pool holding
only ex1, the filtered target list — the list the label loop iterates — holds
exactly the ex1 exercise, so the requested label ex2 is never iterated,
refuting "every requested label is iterated exactly once". -/
theorem c7_missing_label_never_iterated :
    labels_of (filter_by_labels c7labels c7pool) = [some "ex1"]
    ∧ c7labels.length = 2
    ∧ (filter_by_labels c7labels c7pool).length = 1 :=
  ⟨rfl, rfl, rfl⟩

/-- C7 (amended): the accepted set is bounded by the requested count in the
non-label and creation loops, and by the number of targets (the requested
labels found in the pool, at most one success each) in label runs; the label
loop visits each found target exactly once (it is a `filterMap` over the
target list); the target list is exactly the pool filtered to the requested
labels; and each target's retry loop consults only its own attempts 0-2, a
fixed budget independent of the global one. -/
theorem c7_bounds_and_label_iteration
    (n : ℕ) (selected targets pool : List (Exercise × Analysis)) (labels : List String)
    (rand : ℕ → ℕ) (gen : ℕ → Exercise → Analysis → Except Unit (Option Variation))
    (genL : Exercise → Analysis → ℕ → Except Unit (Option Variation))
    (genC : ℕ → String → List String → Except String (Option Variation))
    (validate : Exercise → Analysis → Variation → ValidationResult)
    (topics tags : List String) (fuel k : ℕ) (vs : List Variation) :
    (run_variation_loop n selected rand gen validate fuel k
        { valid := [], attempts := 0 }).state.valid.length ≤ n
    ∧ (run_creation genC topics tags n = .ok vs → vs.length ≤ n)
    ∧ run_label_loop genL targets
        = targets.filterMap (fun p => label_attempt_loop (genL p.1 p.2) 3 0)
    ∧ (run_label_loop genL targets).length ≤ targets.length
    ∧ (∀ p, p ∈ filter_by_labels labels pool ↔
        p ∈ pool ∧ ∃ l, p.1.label = some l ∧ l ∈ labels)
    ∧ (∀ g g2 : ℕ → Except Unit (Option Variation),
        (∀ j, j < 3 → g j = g2 j) →
        label_attempt_loop g 3 0 = label_attempt_loop g2 3 0) := by
  refine ⟨?_, ?_, ?_, ?_, ?_, ?_⟩
  · exact run_variation_loop_length n selected rand gen validate fuel k _ (by simp)
  · intro h
    have := run_creation_loop_length genC topics tags (List.range n) [] vs h
    simpa using this
  · exact run_label_loop_eq_filterMap genL targets
  · rw [run_label_loop_eq_filterMap genL targets]
    exact List.length_filterMap_le _ _
  · intro p
    simp only [filter_by_labels, List.mem_filter]
    constructor
    · rintro ⟨hp, hq⟩
      refine ⟨hp, ?_⟩
      cases hl : p.1.label with
      | none => rw [hl] at hq; cases hq
      | some l =>
        rw [hl] at hq
        refine ⟨l, rfl, ?_⟩
        simpa using hq
    · rintro ⟨hp, l, hl, hmem⟩
      refine ⟨hp, ?_⟩
      rw [hl]
      simpa using hmem
  · exact label_attempt_loop_budget

def c7wEx : Exercise := { label := some "ex7", content := "b" }

def c7wAn : Analysis := { total_complexity := 1 }

def c7wVar : Variation :=
  { variation_content := "v", variation_solution := "", original_frontmatter := [] }

def c7wGenL : Exercise → Analysis → ℕ → Except Unit (Option Variation) :=
  fun _ _ _ => .ok (some c7wVar)

def c7wGenC : ℕ → String → List String → Except String (Option Variation) :=
  fun _ _ _ => .ok (some c7wVar)

theorem c7_bounds_and_label_iteration_witness :
    (run_variation_loop 1 [(c7wEx, c7wAn)] (fun _ => 0)
        (fun _ _ _ => .ok (some c7wVar)) (fun _ _ _ => { is_valid := false }) 10 0
        { valid := [], attempts := 0 }).state.valid.length ≤ 1
    ∧ ([c7wVar, c7wVar] : List Variation).length ≤ 2
    ∧ run_label_loop c7wGenL [(c7wEx, c7wAn)]
        = [(c7wEx, c7wAn)].filterMap (fun p => label_attempt_loop (c7wGenL p.1 p.2) 3 0)
    ∧ (run_label_loop c7wGenL [(c7wEx, c7wAn)]).length ≤ 1
    ∧ (c7wEx, c7wAn)
        ∈ filter_by_labels ["ex7"] [(c7wEx, c7wAn)] :=
  ⟨(c7_bounds_and_label_iteration 1 [(c7wEx, c7wAn)] [(c7wEx, c7wAn)]
      [(c7wEx, c7wAn)] ["ex7"] (fun _ => 0)
      (fun _ _ _ => .ok (some c7wVar)) c7wGenL c7wGenC
      (fun _ _ _ => { is_valid := false }) ["t"] [] 10 0 [c7wVar, c7wVar]).1,
   (c7_bounds_and_label_iteration 2 [(c7wEx, c7wAn)] [(c7wEx, c7wAn)]
      [(c7wEx, c7wAn)] ["ex7"] (fun _ => 0)
      (fun _ _ _ => .ok (some c7wVar)) c7wGenL c7wGenC
      (fun _ _ _ => { is_valid := false }) ["t"] [] 10 0 [c7wVar, c7wVar]).2.1 rfl,
   (c7_bounds_and_label_iteration 1 [(c7wEx, c7wAn)] [(c7wEx, c7wAn)]
      [(c7wEx, c7wAn)] ["ex7"] (fun _ => 0)
      (fun _ _ _ => .ok (some c7wVar)) c7wGenL c7wGenC
      (fun _ _ _ => { is_valid := false }) ["t"] [] 10 0 [c7wVar, c7wVar]).2.2.1,
   (c7_bounds_and_label_iteration 1 [(c7wEx, c7wAn)] [(c7wEx, c7wAn)]
      [(c7wEx, c7wAn)] ["ex7"] (fun _ => 0)
      (fun _ _ _ => .ok (some c7wVar)) c7wGenL c7wGenC
      (fun _ _ _ => { is_valid := false }) ["t"] [] 10 0 [c7wVar, c7wVar]).2.2.2.1,
   ((c7_bounds_and_label_iteration 1 [(c7wEx, c7wAn)] [(c7wEx, c7wAn)]
      [(c7wEx, c7wAn)] ["ex7"] (fun _ => 0)
      (fun _ _ _ => .ok (some c7wVar)) c7wGenL c7wGenC
      (fun _ _ _ => { is_valid := false }) ["t"] [] 10 0 [c7wVar, c7wVar]).2.2.2.2.1
      _).mpr ⟨by decide, "ex7", rfl, by decide⟩⟩

/-! ### Claim C8 -/

/-- C8: the candidate ranking produced by the orchestrator is non-increasing
in the scalar complexity score (the `total_complexity` key, the spec's
`math_complexity`), the non-label candidate pool is a prefix of it and hence
also non-increasing, and the loop's draw comes from the slice
`selected[:max(5, len(selected)//2)]` — every drawn pair lies in that
top-half-minimum-5 segment, and every index of the segment is drawn for the
random value equal to it (the draw is the segment indexed uniformly by
`r mod len`). -/
theorem c8_selection_from_sorted_top_half
    (pool : List (Exercise × Analysis)) (n r : ℕ) :
    List.Pairwise poolOrder (sort_by_complexity pool)
    ∧ List.Pairwise poolOrder (select_candidates (sort_by_complexity pool) false n)
    ∧ (selection_segment (select_candidates (sort_by_complexity pool) false n)).length
        = min (max 5 ((select_candidates (sort_by_complexity pool) false n).length / 2))
            (select_candidates (sort_by_complexity pool) false n).length
    ∧ (∀ x, select_base_exercise (select_candidates (sort_by_complexity pool) false n) r
          = some x →
        x ∈ selection_segment (select_candidates (sort_by_complexity pool) false n))
    ∧ (∀ i (h : i <
          (selection_segment (select_candidates (sort_by_complexity pool) false n)).length),
        select_base_exercise (select_candidates (sort_by_complexity pool) false n) i
          = some ((selection_segment
              (select_candidates (sort_by_complexity pool) false n)).get ⟨i, h⟩)) := by
  have hsorted : List.Pairwise poolOrder (sort_by_complexity pool) :=
    List.sorted_insertionSort poolOrder pool
  refine ⟨hsorted, ?_, ?_, ?_, ?_⟩
  · have hsub : List.Sublist (select_candidates (sort_by_complexity pool) false n)
        (sort_by_complexity pool) := by
      simp only [select_candidates, if_neg (Bool.false_ne_true)]
      exact List.take_sublist _ _
    exact hsorted.sublist hsub
  · simp [selection_segment, List.length_take]
  · intro x h
    exact random_choice_mem h
  · intro i h
    unfold select_base_exercise random_choice
    rw [Nat.mod_eq_of_lt h, List.getElem?_eq_getElem h]
    rfl

def c8e1 : Exercise := { label := some "e1", content := "x" }

def c8e2 : Exercise := { label := some "e2", content := "y" }

def c8pool : List (Exercise × Analysis) :=
  [(c8e1, { total_complexity := 1 }), (c8e2, { total_complexity := 3 })]

theorem c8_selection_from_sorted_top_half_witness :
    List.Pairwise poolOrder (sort_by_complexity c8pool)
    ∧ (c8e2, ({ total_complexity := 3 } : Analysis))
        ∈ selection_segment (select_candidates (sort_by_complexity c8pool) false 1) :=
  ⟨(c8_selection_from_sorted_top_half c8pool 1 0).1,
   (c8_selection_from_sorted_top_half c8pool 1 0).2.2.2.1 _ rfl⟩

/-! ### Claim C9 -/

/-- C9: in creation mode the base topic of attempt `i` is topic number
`i mod T` (so each topic `t < T` is the base topic of either `⌊n/T⌋` or
`⌈n/T⌉` of the `n` attempts), and explicit tags are rotated by the same
attempt index modulo their own count. -/
theorem c9_round_robin_balance (topics tags : List String) (n t : ℕ)
    (hT : 0 < topics.length) (ht : t < topics.length) :
    (creation_base_topic_count topics t n = n / topics.length
      ∨ creation_base_topic_count topics t n
          = (n + topics.length - 1) / topics.length)
    ∧ (∀ i, creation_topic_index topics i = t →
        creation_topic_at topics i = topics.getD t "")
    ∧ (tags ≠ [] → ∀ i, creation_tags_at topics tags i
        = [tags.getD (i % tags.length) ""]) := by
  refine ⟨?_, ?_, ?_⟩
  · have hcount := count_mod_eq topics.length t hT ht n
    have hceil := ceil_div_eq topics.length n hT
    unfold creation_base_topic_count creation_topic_index
    rw [hcount]
    by_cases hc : t < n % topics.length
    · right
      rw [if_pos hc, hceil, if_neg (by omega)]
    · left
      rw [if_neg hc, Nat.add_zero]
  · intro i hi
    unfold creation_topic_at
    rw [hi]
  · intro htags i
    unfold creation_tags_at
    rw [if_pos htags]

theorem c9_round_robin_balance_witness :
    (creation_base_topic_count ["a", "b", "c"] 1 7
        = 7 / (["a", "b", "c"] : List String).length
      ∨ creation_base_topic_count ["a", "b", "c"] 1 7
          = (7 + (["a", "b", "c"] : List String).length - 1)
              / (["a", "b", "c"] : List String).length)
    ∧ creation_topic_at ["a", "b", "c"] 4 = (["a", "b", "c"] : List String).getD 1 ""
    ∧ creation_tags_at ["a", "b", "c"] ["x", "y"] 5
        = [(["x", "y"] : List String).getD (5 % (["x", "y"] : List String).length) ""] :=
  ⟨(c9_round_robin_balance ["a", "b", "c"] ["x", "y"] 7 1 (by decide) (by decide)).1,
   (c9_round_robin_balance ["a", "b", "c"] ["x", "y"] 7 1 (by decide) (by decide)).2.1
     4 (by decide),
   (c9_round_robin_balance ["a", "b", "c"] ["x", "y"] 7 1 (by decide) (by decide)).2.2
     (by decide) 5⟩

/-! ### Claim C10 -/

/-- C10: under the gemini provider, `generate_variation_with_solution` of the
base generator dispatches the solution step over openai, anthropic and local
only, so `solution_content` stays `None`, the variation is returned exactly as
`generate_variation` produced it, and every successful result keeps the
untouched placeholder solution text. -/
theorem c10_gemini_solution_placeholder (env : GenEnv) (ex : Exercise) (an : Analysis) :
    generate_variation_with_solution_base "gemini" env ex an
      = generate_variation_base "gemini" env ex an "development"
    ∧ (∀ v, generate_variation_with_solution_base "gemini" env ex an = some v →
        v.variation_solution = "Solución no generada en modo simple.") := by
  have heq : generate_variation_with_solution_base "gemini" env ex an
      = generate_variation_base "gemini" env ex an "development" := by
    simp only [generate_variation_with_solution_base, reduceIte, strTruthy]
    cases generate_variation_base "gemini" env ex an "development" <;> rfl
  refine ⟨heq, fun v hv => ?_⟩
  rw [heq] at hv
  exact generate_variation_base_dev_solution _ _ _ _ _ hv

def c10env : GenEnv :=
  { openai := fun _ => some "solucion openai"
    anthropic := fun _ => some "solucion anthropic"
    localApi := fun _ => some "solucion local"
    gemini := fun _ => some "ejercicio gemini"
    format_context_dict := fun _ => "" }

def c10ex : Exercise := { label := some "ex10-01", content := "base" }

def c10an : Analysis := { total_complexity := 2 }

def c10dummy : Variation :=
  { variation_content := "", variation_solution := "", original_frontmatter := [] }

theorem c10_gemini_solution_placeholder_witness :
    ((generate_variation_with_solution_base "gemini" c10env c10ex c10an).getD
        c10dummy).variation_solution
      = "Solución no generada en modo simple." :=
  (c10_gemini_solution_placeholder c10env c10ex c10an).2 _ rfl
